import Mathlib

/-!
Verification of the shiftsync scheduling core: a shallow embedding of the
constraint validation engine, the shift mutation layer and the swap/drop
request workflow, together with theorems settling the specified properties.

Conventions of the embedding:
* Wall-clock times of day are structures of hour and minute; the source
  stores them as zero-padded HH:MM strings, whose lexicographic order
  coincides with the numeric order of minutes since midnight, so string
  comparisons in the source are modelled by comparisons of toMinutes.
* Calendar dates are integers counting days; day 0 is taken to be a Sunday,
  so the JavaScript getDay index of a date d is d mod 7.
* Absolute instants are integers counting minutes (the source uses epoch
  milliseconds; every quantity compared is a whole number of minutes, so the
  scale factor 60000 is dropped and hour values become rationals m/60).
* Database tables are lists of records carried in an Env structure; queries
  become filters/finds over those lists.  Fire-and-forget collaborators
  (notifications, audit log, path revalidation) have no effect on the data
  model and are not modelled.  Authentication wrappers are modelled by
  passing the acting user id explicitly.
-/

namespace ShiftSync

/-- Wall-clock time of day (source: zero-padded HH:MM strings). -/
structure TimeOfDay where
  hour : Nat
  minute : Nat
deriving DecidableEq, Repr

/-- Source toMinutes: convert HH:MM to minutes since midnight. -/
def toMinutes (t : TimeOfDay) : Int :=
  t.hour * 60 + t.minute

/-- Source isOvernightShift: true when endTime represents the next calendar
day; the source compares the HH:MM strings, equivalent to comparing minutes. -/
def isOvernightShift (startTime endTime : TimeOfDay) : Bool :=
  toMinutes endTime ≤ toMinutes startTime

/-- Source shiftDurationHours: shift duration in hours, handling overnight
correctly (minutes difference, plus a day when nonpositive, divided by 60). -/
def shiftDurationHours (startTime endTime : TimeOfDay) : ℚ :=
  let mins : Int := toMinutes endTime - toMinutes startTime
  let mins : Int := if mins ≤ 0 then mins + 24 * 60 else mins
  (mins : ℚ) / 60

/-- Source absoluteRange: start/end of a shift as minute offsets from
midnight of its start date, adding 24h to the end when overnight. -/
def absoluteRange (startTime endTime : TimeOfDay) : Int × Int :=
  let s := toMinutes startTime
  let e := toMinutes endTime
  if e ≤ s then (s, e + 24 * 60) else (s, e)

/-- JavaScript getDay of an abstract integer date: day 0 is a Sunday. -/
def jsGetDay (date : Int) : Int :=
  date % 7

/-- Source addDays on the integer date model. -/
def addDays (date : Int) (n : Int) : Int :=
  date + n

/-- Absolute instant (in minutes) of midnight of a date; the source uses
new Date(date).getTime() in milliseconds. -/
def dateBase (date : Int) : Int :=
  date * (24 * 60)

-- ── Data model (source: src/db/schema.ts) ────────────────────────

/-- Row of the availability_rules table: recurring weekly window.
dayOfWeek is the getDay index 0..6 of the enum SUN..SAT. -/
structure AvailabilityRule where
  staffId : String
  dayOfWeek : Int
  startTime : TimeOfDay
  endTime : TimeOfDay
deriving DecidableEq, Repr

/-- Row of the availability_exceptions table: single-date override;
isAvailable false blocks the day, true marks an available window. -/
structure AvailabilityException where
  staffId : String
  date : Int
  isAvailable : Bool
  startTime : Option TimeOfDay
  endTime : Option TimeOfDay
deriving DecidableEq, Repr

/-- Row of the shifts table (publishedAt and timestamps elided: no claim
inspects them). -/
structure Shift where
  id : String
  locationId : String
  date : Int
  startTime : TimeOfDay
  endTime : TimeOfDay
  skillId : String
  headcount : Nat
  isPublished : Bool
  version : Int
deriving DecidableEq, Repr

/-- Row of the shift_assignments table. -/
structure ShiftAssignment where
  id : String
  shiftId : String
  staffId : String
  assignedBy : String
  assignedAt : Int
deriving DecidableEq, Repr

/-- Status of a swap/drop request. -/
inductive RequestStatus where
  | PENDING
  | ACCEPTED_BY_TARGET
  | APPROVED
  | DENIED
  | CANCELLED
deriving DecidableEq, Repr

/-- Type of a request: swap with a designated target, or open drop. -/
inductive RequestType where
  | SWAP
  | DROP
deriving DecidableEq, Repr

/-- Row of the swap_requests table (timestamps elided). -/
structure SwapRequest where
  id : String
  shiftAssignmentId : String
  requestedBy : String
  type : RequestType
  targetStaffId : Option String
  status : RequestStatus
  reviewedBy : Option String
  reviewedAt : Option Int
  reviewNotes : Option String
deriving DecidableEq, Repr

/-- Row of the users table (only the fields the core reads). -/
structure User where
  id : String
  name : String
  role : String
deriving DecidableEq, Repr

/-- The relational store plus the current instant, as read by the core. -/
structure Env where
  users : List User
  staffSkills : List (String × String)
  staffLocationCerts : List (String × String)
  availabilityRules : List AvailabilityRule
  availabilityExceptions : List AvailabilityException
  shifts : List Shift
  shiftAssignments : List ShiftAssignment
  swapRequests : List SwapRequest
  now : Int
deriving DecidableEq, Repr

/-- Severity and stable code of a rule violation; the human-readable
message is carried verbatim where the source uses a constant string and as
the constant skeleton where the source interpolates numbers. -/
structure ConstraintViolation where
  type : String
  code : String
  message : String
deriving DecidableEq, Repr

/-- Source AssignmentValidationResult. -/
structure AssignmentValidationResult where
  valid : Bool
  violations : List ConstraintViolation
  suggestions : Option (List String)
deriving DecidableEq, Repr

/-- Candidate shift data handed to the engine. -/
structure ShiftData where
  id : String
  locationId : String
  date : Int
  startTime : TimeOfDay
  endTime : TimeOfDay
  skillId : String
deriving DecidableEq, Repr

-- ── Constraint engine (source: src/lib/constraints.ts) ───────────

/-- Source checkSkillMatch: the staff_skills table holds the pair. -/
def checkSkillMatch (env : Env) (staffId skillId : String) : Bool :=
  env.staffSkills.any fun p => p.1 = staffId ∧ p.2 = skillId

/-- Source checkLocationCertification. -/
def checkLocationCertification (env : Env) (staffId locationId : String) : Bool :=
  env.staffLocationCerts.any fun p => p.1 = staffId ∧ p.2 = locationId

/-- Source checkSingleDayAvailability: the recurring rules of the staff
member for the day-of-week of the date must contain the requested range in
a single rule; with no rule at all the day is unavailable. -/
def checkSingleDayAvailability (env : Env) (staffId : String) (date : Int)
    (startTime endTime : TimeOfDay) : Bool :=
  let rules := env.availabilityRules.filter fun r =>
    r.staffId = staffId ∧ r.dayOfWeek = jsGetDay date
  if rules.isEmpty then
    false
  else
    let needStart := toMinutes startTime
    let needEnd := toMinutes endTime
    rules.any fun r =>
      needStart ≥ toMinutes r.startTime ∧ needEnd ≤ toMinutes r.endTime

/-- Source checkAvailability: any isAvailable=false exception for the date
blocks it; otherwise a normal shift is one single-day check, and an
overnight shift is split at midnight into checks of both dates (including
the exceptions of the second date).  The available flag is returned; the
reason strings only feed messages and are elided. -/
def checkAvailability (env : Env) (staffId : String) (date : Int)
    (startTime endTime : TimeOfDay) : Bool :=
  let exceptions := env.availabilityExceptions.filter fun e =>
    e.staffId = staffId ∧ e.date = date
  if exceptions.any (fun e => ¬ e.isAvailable) then
    false
  else if ¬ isOvernightShift startTime endTime then
    checkSingleDayAvailability env staffId date startTime endTime
  else
    let day1 := checkSingleDayAvailability env staffId date startTime ⟨23, 59⟩
    if ¬ day1 then
      false
    else
      let nextDate := addDays date 1
      let day2Exceptions := env.availabilityExceptions.filter fun e =>
        e.staffId = staffId ∧ e.date = nextDate
      if day2Exceptions.any (fun e => ¬ e.isAvailable) then
        false
      else
        checkSingleDayAvailability env staffId nextDate ⟨0, 0⟩ endTime

/-- Assignments of a staff member joined with their shifts
(inner join of shift_assignments and shifts on shiftId). -/
def assignedShifts (env : Env) (staffId : String) : List Shift :=
  env.shiftAssignments.filterMap fun a =>
    if a.staffId = staffId then env.shifts.find? (fun s => s.id = a.shiftId)
    else none

/-- Absolute minute range of a shift row: midnight of its date plus its
absoluteRange (the source multiplies by 60000 into epoch milliseconds). -/
def shiftAbsRange (date : Int) (startTime endTime : TimeOfDay) : Int × Int :=
  let r := absoluteRange startTime endTime
  (dateBase date + r.1, dateBase date + r.2)

/-- Source checkShiftOverlap: gather the assignments of the staff member on
the date, the previous date, and (for an overnight candidate) the next
date, excluding the candidate shift itself, and test numeric interval
overlap of absolute ranges. -/
def checkShiftOverlap (env : Env) (staffId : String) (newShift : ShiftData) : Bool :=
  let overnight := isOvernightShift newShift.startTime newShift.endTime
  let datesToCheck :=
    [newShift.date]
      ++ (if overnight then [addDays newShift.date 1] else [])
      ++ [addDays newShift.date (-1)]
  let assignments := (assignedShifts env staffId).filter fun s =>
    s.date ∈ datesToCheck ∧ s.id ≠ newShift.id
  let newRange := shiftAbsRange newShift.date newShift.startTime newShift.endTime
  assignments.any fun s =>
    let existingRange := shiftAbsRange s.date s.startTime s.endTime
    newRange.1 < existingRange.2 ∧ existingRange.1 < newRange.2

/-- Directional rest gap condition of the source check10HourRest for one
existing assignment: either the hours from the existing end to the new
start, or the hours from the new end to the existing start, lie strictly
between 0 and 10. -/
def restGapViolation (newRange : Int × Int) (existingRange : Int × Int) : Bool :=
  let hoursAfterExisting : ℚ := ((newRange.1 - existingRange.2 : Int) : ℚ) / 60
  let hoursBeforeExisting : ℚ := ((existingRange.1 - newRange.2 : Int) : ℚ) / 60
  (0 < hoursAfterExisting ∧ hoursAfterExisting < 10)
    ∨ (0 < hoursBeforeExisting ∧ hoursBeforeExisting < 10)

/-- Date window searched by the source check10HourRest: the day before,
the day itself, the day after and two days after. -/
def restWindowDates (date : Int) : List Int :=
  [addDays date (-1), date, addDays date 1, addDays date 2]

/-- Source check10HourRest: true when some assignment of the staff member
in the window has a directional gap strictly between 0 and 10 hours (the
source returns the message of the first such assignment; only presence of
a message feeds the violation list). -/
def check10HourRest (env : Env) (staffId : String) (newShift : ShiftData) : Bool :=
  let adjacentAssignments := (assignedShifts env staffId).filter fun s =>
    s.date ∈ restWindowDates newShift.date
  let newRange := shiftAbsRange newShift.date newShift.startTime newShift.endTime
  adjacentAssignments.any fun s =>
    restGapViolation newRange (shiftAbsRange s.date s.startTime s.endTime)

/-- Source getDailyHours: total duration of the assignments of the staff
member on the given date. -/
def getDailyHours (env : Env) (staffId : String) (date : Int) : ℚ :=
  ((assignedShifts env staffId).filter fun s => s.date = date).foldl
    (fun acc s => acc + shiftDurationHours s.startTime s.endTime) 0

/-- Monday of the week containing a date, per the source getWeeklyHours
arithmetic on the getDay index. -/
def mondayOf (date : Int) : Int :=
  let dayOfWeek := jsGetDay date
  date - (if dayOfWeek = 0 then 6 else dayOfWeek - 1)

/-- Source getWeeklyHours: total duration of the assignments of the staff
member between the Monday and Sunday of the week of the date. -/
def getWeeklyHours (env : Env) (staffId : String) (date : Int) : ℚ :=
  let monday := mondayOf date
  let sunday := monday + 6
  ((assignedShifts env staffId).filter fun s =>
      monday ≤ s.date ∧ s.date ≤ sunday).foldl
    (fun acc s => acc + shiftDurationHours s.startTime s.endTime) 0

/-- Whether the staff member has at least one assignment on a date. -/
def workedOn (env : Env) (staffId : String) (date : Int) : Bool :=
  (assignedShifts env staffId).any fun s => s.date = date

/-- Consecutive worked days walking from a date in a direction, stopping at
the first free day, capped by the fuel (the source loops at most 14 times). -/
def consecutiveFrom (env : Env) (staffId : String) :
    Int → Int → Nat → Nat
  | _, _, 0 => 0
  | d, step, fuel + 1 =>
    if workedOn env staffId d then
      1 + consecutiveFrom env staffId (d + step) step fuel
    else
      0

/-- Source getConsecutiveDays: worked days immediately before plus the
candidate day itself plus worked days immediately after, each side bounded
by 14 days. -/
def getConsecutiveDays (env : Env) (staffId : String) (date : Int) : Nat :=
  consecutiveFrom env staffId (date - 1) (-1) 14
    + 1
    + consecutiveFrom env staffId (date + 1) 1 14

/-- Source checkLaborLimits: daily hours (hard error over 12, warning over
8), weekly hours (warnings at 40 and 35) and consecutive days (error at 7,
warning at 6).  Messages keep the constant part of the source templates;
interpolated totals are elided. -/
def checkLaborLimits (env : Env) (staffId : String) (newShift : ShiftData) :
    List ConstraintViolation :=
  let shiftHours := shiftDurationHours newShift.startTime newShift.endTime
  let totalDailyHours := getDailyHours env staffId newShift.date + shiftHours
  let daily : List ConstraintViolation :=
    if totalDailyHours > 12 then
      [⟨"error", "DAILY_HOURS_HARD_LIMIT", "Cannot exceed 12 hours in a single day."⟩]
    else if totalDailyHours > 8 then
      [⟨"warning", "DAILY_HOURS_WARNING", "Standard daily limit is 8 hours."⟩]
    else []
  let totalWeeklyHours := getWeeklyHours env staffId newShift.date + shiftHours
  let weekly : List ConstraintViolation :=
    if totalWeeklyHours ≥ 40 then
      [⟨"warning", "WEEKLY_OVERTIME", "Overtime hours this week."⟩]
    else if totalWeeklyHours ≥ 35 then
      [⟨"warning", "WEEKLY_HOURS_APPROACHING_OVERTIME",
        "Approaching 40-hour overtime threshold."⟩]
    else []
  let consecutiveDays := getConsecutiveDays env staffId newShift.date
  let consecutive : List ConstraintViolation :=
    if consecutiveDays ≥ 7 then
      [⟨"error", "SEVENTH_CONSECUTIVE_DAY",
        "Staff member would work their 7th consecutive day. This requires manager override with documented reason."⟩]
    else if consecutiveDays ≥ 6 then
      [⟨"warning", "SIXTH_CONSECUTIVE_DAY",
        "Staff member would work their 6th consecutive day. Consider scheduling a rest day."⟩]
    else []
  daily ++ weekly ++ consecutive

/-- Source findStaffWithSkill: users of role STAFF joined with the skill
and the location certification, first 10, as (id, name) pairs. -/
def findStaffWithSkill (env : Env) (skillId locationId : String) :
    List (String × String) :=
  ((env.users.filter fun u =>
      u.role = "STAFF"
        ∧ checkSkillMatch env u.id skillId
        ∧ checkLocationCertification env u.id locationId).take 10).map
    fun u => (u.id, u.name)

/-- Source validateAssignment: run every check, collect the violations in
source order, and generate alternate-staff suggestions when an error is
present; valid iff no error-severity violation. -/
def validateAssignment (env : Env) (staffId : String) (shift : ShiftData) :
    AssignmentValidationResult :=
  let violations : List ConstraintViolation :=
    (if ¬ checkSkillMatch env staffId shift.skillId then
      [⟨"error", "SKILL_MISMATCH",
        "Staff member does not have the required skill for this shift"⟩]
     else [])
    ++ (if ¬ checkLocationCertification env staffId shift.locationId then
      [⟨"error", "LOCATION_NOT_CERTIFIED",
        "Staff member is not certified to work at this location"⟩]
     else [])
    ++ (if ¬ checkAvailability env staffId shift.date shift.startTime shift.endTime then
      [⟨"error", "NOT_AVAILABLE", "Staff member is not available at this time"⟩]
     else [])
    ++ (if checkShiftOverlap env staffId shift then
      [⟨"error", "SHIFT_OVERLAP", "Staff member has an overlapping shift at this time"⟩]
     else [])
    ++ (if check10HourRest env staffId shift then
      [⟨"error", "REST_PERIOD_VIOLATION", "Minimum 10 hours required."⟩]
     else [])
    ++ checkLaborLimits env staffId shift
  let suggestions : List String :=
    if violations.any (fun v => v.type = "error") then
      let qualifiedStaff := findStaffWithSkill env shift.skillId shift.locationId
      let others := qualifiedStaff.filter fun s => s.1 ≠ staffId
      if others.length > 0 then
        ["Available alternatives: "
          ++ String.intercalate ", " ((others.take 3).map Prod.snd)]
      else []
    else []
  { valid := (violations.filter fun v => v.type = "error").length = 0
    violations := violations
    suggestions := if suggestions.length > 0 then some suggestions else none }

-- ── Assignment action (source: schedules/[locationId]/assignment-actions.ts) ──

/-- Outcome record of a server action; fields absent from the returned
object are none. -/
structure ActionResult where
  success : Bool
  error : Option String
  overridable : Option Bool
  warnings : Option (List String)
deriving DecidableEq, Repr

/-- Abort reasons raised inside the assignment transaction. -/
inductive AssignTxError where
  | DOUBLE_BOOKING
  | ALREADY_ASSIGNED
deriving DecidableEq, Repr

/-- Length of a string after removing leading and trailing whitespace,
modelling the JavaScript trim; written on the character list of the
string so that it evaluates by kernel reduction. -/
def trimmedLength (s : String) : Nat :=
  ((s.data.dropWhile Char.isWhitespace).reverse.dropWhile
    Char.isWhitespace).length

/-- Truthiness test of the override reason in the source: the optional
string must be truthy (present and nonempty) and nonempty after trim. -/
def overrideReasonOk : Option String → Bool
  | none => false
  | some s => s ≠ "" ∧ 0 < trimmedLength s

/-- Body of the assignment transaction (source lines 62-137): under the
staff advisory lock, re-check overlap against the freshly read nearby
assignments, reject duplicates, then insert.  The shift id, previous date
and (for an overnight shift) next date are re-checked. -/
def assignWithinTx (env : Env) (userId shiftId staffId freshId : String)
    (shiftRow : Shift) : Except AssignTxError Env :=
  let datesToCheck :=
    [shiftRow.date, addDays shiftRow.date (-1)]
      ++ (if toMinutes shiftRow.endTime ≤ toMinutes shiftRow.startTime then
            [addDays shiftRow.date 1]
          else [])
  let nearbyAssignments := (assignedShifts env staffId).filter fun s =>
    s.date ∈ datesToCheck ∧ s.id ≠ shiftId
  let newRange := shiftAbsRange shiftRow.date shiftRow.startTime shiftRow.endTime
  if nearbyAssignments.any (fun s =>
      let existingRange := shiftAbsRange s.date s.startTime s.endTime
      newRange.1 < existingRange.2 ∧ existingRange.1 < newRange.2) then
    .error .DOUBLE_BOOKING
  else if env.shiftAssignments.any (fun a =>
      a.shiftId = shiftId ∧ a.staffId = staffId) then
    .error .ALREADY_ASSIGNED
  else
    .ok { env with shiftAssignments :=
      env.shiftAssignments ++ [⟨freshId, shiftId, staffId, userId, env.now⟩] }

/-- Source assignStaffToShift: read the shift, run the constraint engine,
apply the overridable-error gate, then run the locked transaction and
translate its aborts.  freshId stands for the database-generated row id. -/
def assignStaffToShift (env : Env) (userId shiftId staffId : String)
    (overrideReason : Option String) (freshId : String) : ActionResult × Env :=
  match env.shifts.find? (fun s => s.id = shiftId) with
  | none => (⟨false, some "Shift not found", none, none⟩, env)
  | some shiftRow =>
    let validation := validateAssignment env staffId
      ⟨shiftRow.id, shiftRow.locationId, shiftRow.date,
        shiftRow.startTime, shiftRow.endTime, shiftRow.skillId⟩
    let errors := validation.violations.filter fun v => v.type = "error"
    let onlySeventhDay : Bool :=
      errors.length = 1
        ∧ errors.head?.map ConstraintViolation.code = some "SEVENTH_CONSECUTIVE_DAY"
    if ¬ validation.valid ∧ ¬ (onlySeventhDay ∧ overrideReasonOk overrideReason) then
      (⟨false,
        some (String.intercalate "; " (errors.map ConstraintViolation.message)),
        some onlySeventhDay, none⟩, env)
    else
      match assignWithinTx env userId shiftId staffId freshId shiftRow with
      | .error .DOUBLE_BOOKING =>
        (⟨false,
          some "Staff member has a conflicting shift at this time. They were just assigned to an overlapping shift by another manager.",
          none, none⟩, env)
      | .error .ALREADY_ASSIGNED =>
        (⟨false, some "Staff is already assigned to this shift", none, none⟩, env)
      | .ok env2 =>
        (⟨true, none, none,
          some ((validation.violations.filter fun v => v.type = "warning").map
            ConstraintViolation.message)⟩, env2)

-- ── Shift mutations (source: schedules/[locationId]/actions.ts) ──────────

/-- Fields of the shift create/update form (already past zod validation,
which is schema-level input checking out of scope here). -/
structure ShiftParams where
  locationId : String
  date : Int
  startTime : TimeOfDay
  endTime : TimeOfDay
  skillId : String
  headcount : Nat
deriving DecidableEq, Repr

/-- Synthetic note written by the cascade cancellation of updateShift. -/
def cascadeCancelNote : String :=
  "Automatically cancelled because the shift was modified"

/-- Source createShift: insert a draft shift with isPublished false and
version 1.  freshId stands for the database-generated id. -/
def createShift (env : Env) (p : ShiftParams) (freshId : String) :
    ActionResult × Env :=
  (⟨true, none, none, none⟩,
    { env with shifts := env.shifts ++
      [⟨freshId, p.locationId, p.date, p.startTime, p.endTime, p.skillId,
        p.headcount, false, 1⟩] })

/-- Row transformation of the conditional update of updateShift: rows
matching both the id and the caller-supplied version get the new fields and
version + 1 (the source update does not touch locationId). -/
def updateShiftRow (shiftId : String) (p : ShiftParams) (version : Int)
    (s : Shift) : Shift :=
  if s.id = shiftId ∧ s.version = version then
    { s with
      date := p.date
      startTime := p.startTime
      endTime := p.endTime
      skillId := p.skillId
      headcount := p.headcount
      version := version + 1 }
  else s

/-- Row transformation of the cascade cancellation: PENDING requests whose
assignment belongs to the edited shift become CANCELLED with the synthetic
note; the source update writes only status, reviewNotes and updatedAt. -/
def cascadeCancelRow (affectedIds : List String) (r : SwapRequest) : SwapRequest :=
  if r.id ∈ affectedIds then
    { r with status := .CANCELLED, reviewNotes := some cascadeCancelNote }
  else r

/-- Source updateShift: atomic conditional update on (id, version); zero
rows affected is split into not-found versus version conflict by a
follow-up existence read; a successful edit then auto-cancels the PENDING
swap requests tied to the assignments of the shift. -/
def updateShift (env : Env) (shiftId : String) (p : ShiftParams)
    (version : Int) : ActionResult × Env :=
  let affectedRows := env.shifts.filter fun s =>
    s.id = shiftId ∧ s.version = version
  if affectedRows.isEmpty then
    if env.shifts.any (fun s => s.id = shiftId) then
      (⟨false,
        some "Shift was modified by another user. Please refresh and try again.",
        none, none⟩, env)
    else
      (⟨false, some "Shift not found", none, none⟩, env)
  else
    let shifts2 := env.shifts.map (updateShiftRow shiftId p version)
    let assignmentIds := (env.shiftAssignments.filter fun a =>
      a.shiftId = shiftId).map ShiftAssignment.id
    let affectedSwapIds := (env.swapRequests.filter fun r =>
      r.status = .PENDING ∧ r.shiftAssignmentId ∈ assignmentIds).map SwapRequest.id
    let swaps2 := env.swapRequests.map (cascadeCancelRow affectedSwapIds)
    (⟨true, none, none, none⟩,
      { env with shifts := shifts2, swapRequests := swaps2 })

/-- Hours from now until the start instant of a shift (the source divides
an epoch-millisecond difference by 3600000). -/
def hoursUntilStart (env : Env) (date : Int) (startTime : TimeOfDay) : ℚ :=
  ((dateBase date + toMinutes startTime - env.now : Int) : ℚ) / 60

/-- Source deleteShift: under the shift advisory lock, re-read the shift;
a published shift within 48 hours of start is rejected; otherwise the
delete cascades (storage layer) to its assignments and their requests. -/
def deleteShift (env : Env) (shiftId : String) : ActionResult × Env :=
  match env.shifts.find? (fun s => s.id = shiftId) with
  | none => (⟨false, some "Shift not found", none, none⟩, env)
  | some shift =>
    if shift.isPublished ∧ hoursUntilStart env shift.date shift.startTime ≤ 48 then
      (⟨false, some "Cannot delete shift within 48 hours of its start time",
        none, none⟩, env)
    else
      let removedAssignmentIds := (env.shiftAssignments.filter fun a =>
        a.shiftId = shiftId).map ShiftAssignment.id
      (⟨true, none, none, none⟩,
        { env with
          shifts := env.shifts.filter fun s => s.id ≠ shiftId
          shiftAssignments := env.shiftAssignments.filter fun a =>
            a.shiftId ≠ shiftId
          swapRequests := env.swapRequests.filter fun r =>
            r.shiftAssignmentId ∉ removedAssignmentIds })

/-- Source publishShift: atomic update guarded by isPublished = false,
incrementing version; zero rows affected is split by a follow-up read. -/
def publishShift (env : Env) (shiftId : String) : ActionResult × Env :=
  let affectedRows := env.shifts.filter fun s =>
    s.id = shiftId ∧ s.isPublished = false
  if affectedRows.isEmpty then
    match env.shifts.find? (fun s => s.id = shiftId) with
    | none => (⟨false, some "Shift not found", none, none⟩, env)
    | some s =>
      if s.isPublished then
        (⟨false, some "Shift is already published", none, none⟩, env)
      else
        (⟨false, some "Failed to publish shift", none, none⟩, env)
  else
    (⟨true, none, none, none⟩,
      { env with shifts := env.shifts.map fun s =>
        if s.id = shiftId ∧ s.isPublished = false then
          { s with isPublished := true, version := s.version + 1 }
        else s })

/-- Source unpublishShift: existence and isPublished pre-checks, a 48-hour
cutoff read outside the atomic update, then the atomic update guarded by
isPublished = true, incrementing version. -/
def unpublishShift (env : Env) (shiftId : String) : ActionResult × Env :=
  match env.shifts.find? (fun s => s.id = shiftId) with
  | none => (⟨false, some "Shift not found", none, none⟩, env)
  | some shift =>
    if ¬ shift.isPublished then
      (⟨false, some "Shift is not published", none, none⟩, env)
    else if hoursUntilStart env shift.date shift.startTime ≤ 48 then
      (⟨false, some "Cannot unpublish shift within 48 hours of its start time",
        none, none⟩, env)
    else
      let affectedRows := env.shifts.filter fun s =>
        s.id = shiftId ∧ s.isPublished = true
      if affectedRows.isEmpty then
        (⟨false, some "Shift was already unpublished by another user",
          none, none⟩, env)
      else
        (⟨true, none, none, none⟩,
          { env with shifts := env.shifts.map fun s =>
            if s.id = shiftId ∧ s.isPublished = true then
              { s with isPublished := false, version := s.version + 1 }
            else s })

-- ── Swap/drop creation and cancel (source: my-shifts/swap-actions.ts) ────

/-- Cap message shared by swap and drop creation. -/
def requestCapMessage : String :=
  "You already have 3 pending swap/drop requests. Please wait for approval or cancel existing requests."

/-- Concurrent-request count used by the creation cap: requests of the
user whose status is PENDING (the source counts rows with
requestedBy = user and status = PENDING only). -/
def pendingRequestCount (env : Env) (userId : String) : Nat :=
  (env.swapRequests.filter fun r =>
    r.requestedBy = userId ∧ r.status = .PENDING).length

/-- Source createSwapRequest: cap of 3 PENDING requests, ownership of the
assignment, no existing PENDING request on the same assignment, shift
exists, then insert a PENDING SWAP row with the target. -/
def createSwapRequest (env : Env) (userId assignmentId targetStaffId : String)
    (freshId : String) : ActionResult × Env :=
  if pendingRequestCount env userId ≥ 3 then
    (⟨false, some requestCapMessage, none, none⟩, env)
  else
    match env.shiftAssignments.find? (fun a => a.id = assignmentId) with
    | none => (⟨false, some "Assignment not found", none, none⟩, env)
    | some assignment =>
      if assignment.staffId ≠ userId then
        (⟨false, some "You can only request swaps for your own shifts",
          none, none⟩, env)
      else if env.swapRequests.any (fun r =>
          r.shiftAssignmentId = assignmentId ∧ r.status = .PENDING) then
        (⟨false, some "There is already a pending swap request for this shift",
          none, none⟩, env)
      else
        match env.shifts.find? (fun s => s.id = assignment.shiftId) with
        | none => (⟨false, some "Shift not found", none, none⟩, env)
        | some _ =>
          (⟨true, none, none, none⟩,
            { env with swapRequests := env.swapRequests ++
              [⟨freshId, assignmentId, userId, .SWAP, some targetStaffId,
                .PENDING, none, none, none⟩] })

/-- Source createDropRequest: same cap and duplicate rule, plus the shift
start must be strictly more than 24 hours away; inserts a PENDING DROP row
with no target. -/
def createDropRequest (env : Env) (userId assignmentId : String)
    (freshId : String) : ActionResult × Env :=
  if pendingRequestCount env userId ≥ 3 then
    (⟨false, some requestCapMessage, none, none⟩, env)
  else
    match env.shiftAssignments.find? (fun a => a.id = assignmentId) with
    | none => (⟨false, some "Assignment not found", none, none⟩, env)
    | some assignment =>
      if assignment.staffId ≠ userId then
        (⟨false, some "You can only request drops for your own shifts",
          none, none⟩, env)
      else if env.swapRequests.any (fun r =>
          r.shiftAssignmentId = assignmentId ∧ r.status = .PENDING) then
        (⟨false, some "There is already a pending request for this shift",
          none, none⟩, env)
      else
        match env.shifts.find? (fun s => s.id = assignment.shiftId) with
        | none => (⟨false, some "Shift not found", none, none⟩, env)
        | some shift =>
          if hoursUntilStart env shift.date shift.startTime ≤ 24 then
            (⟨false,
              some "Cannot drop a shift within 24 hours of its start time",
              none, none⟩, env)
          else
            (⟨true, none, none, none⟩,
              { env with swapRequests := env.swapRequests ++
                [⟨freshId, assignmentId, userId, .DROP, none,
                  .PENDING, none, none, none⟩] })

/-- Cancel action of the my-shifts module (source my-shifts/swap-actions.ts
cancelSwapRequest): only PENDING requests of the owner can be cancelled;
the update writes status and updatedAt only. -/
def myShiftsCancelSwapRequest (env : Env) (userId requestId : String) :
    ActionResult × Env :=
  match env.swapRequests.find? (fun r => r.id = requestId) with
  | none => (⟨false, some "Request not found", none, none⟩, env)
  | some request =>
    if request.requestedBy ≠ userId then
      (⟨false, some "You can only cancel your own requests", none, none⟩, env)
    else if request.status ≠ .PENDING then
      (⟨false, some "Only pending requests can be cancelled", none, none⟩, env)
    else
      (⟨true, none, none, none⟩,
        { env with swapRequests := env.swapRequests.map fun r =>
          if r.id = requestId then { r with status := .CANCELLED } else r })

-- ── Swap workflow transitions (source: swap-requests/actions.ts) ─────────

/-- Cancel action of the swap-requests module (source
swap-requests/actions.ts cancelSwapRequest): under the request advisory
lock, a request of the owner in PENDING or ACCEPTED_BY_TARGET becomes
CANCELLED; any other status aborts as already processed.  The update
writes status and updatedAt only. -/
def cancelSwapRequest (env : Env) (userId requestId : String) :
    ActionResult × Env :=
  match env.swapRequests.find? (fun r => r.id = requestId) with
  | none => (⟨false, some "Swap request not found", none, none⟩, env)
  | some request =>
    if request.requestedBy ≠ userId then
      (⟨false, some "You can only cancel your own requests", none, none⟩, env)
    else if request.status ≠ .PENDING ∧ request.status ≠ .ACCEPTED_BY_TARGET then
      (⟨false, some "This request has already been processed", none, none⟩, env)
    else
      (⟨true, none, none, none⟩,
        { env with swapRequests := env.swapRequests.map fun r =>
          if r.id = requestId then { r with status := .CANCELLED } else r })

/-- Source approveSwapRequest: under the request advisory lock, a SWAP must
be ACCEPTED_BY_TARGET and a DROP must be PENDING; the request becomes
APPROVED with reviewer fields; a SWAP with a target reassigns staffId on
the existing assignment row; a DROP deletes the assignment row (whose
removal cascades, storage layer, to requests referencing it). -/
def approveSwapRequest (env : Env) (userId requestId : String)
    (notes : Option String) : ActionResult × Env :=
  match env.swapRequests.find? (fun r => r.id = requestId) with
  | none => (⟨false, some "Swap request not found", none, none⟩, env)
  | some request =>
    if request.type = .SWAP ∧ request.status ≠ .ACCEPTED_BY_TARGET then
      (⟨false, some "Target staff has not yet accepted this swap request",
        none, none⟩, env)
    else if request.type = .DROP ∧ request.status ≠ .PENDING then
      (⟨false,
        some "This request has already been processed by another manager",
        none, none⟩, env)
    else
      match env.shiftAssignments.find? (fun a =>
          a.id = request.shiftAssignmentId) with
      | none => (⟨false, some "Shift assignment not found", none, none⟩, env)
      | some assignment =>
        let requests2 := env.swapRequests.map fun r =>
          if r.id = requestId then
            { r with
              status := .APPROVED
              reviewedBy := some userId
              reviewedAt := some env.now
              reviewNotes := notes }
          else r
        match request.type, request.targetStaffId with
        | .SWAP, some target =>
          (⟨true, none, none, none⟩,
            { env with
              swapRequests := requests2
              shiftAssignments := env.shiftAssignments.map fun a =>
                if a.id = assignment.id then
                  { a with
                    staffId := target
                    assignedBy := userId
                    assignedAt := env.now }
                else a })
        | .SWAP, none =>
          (⟨true, none, none, none⟩, { env with swapRequests := requests2 })
        | .DROP, _ =>
          (⟨true, none, none, none⟩,
            { env with
              swapRequests := requests2.filter fun r =>
                r.shiftAssignmentId ≠ assignment.id
              shiftAssignments := env.shiftAssignments.filter fun a =>
                a.id ≠ assignment.id })

-- ── Worker self-pickup (source: my-shifts/actions.ts pickUpShift) ────────

/-- Source pickUpShift: the shift must exist, be published, start strictly
in the future, have assignment count below headcount, and not already hold
the worker; then the assignment is inserted.  The source performs these
reads and the insert directly on the connection, with no transaction or
advisory lock and no call into the constraint engine. -/
def pickUpShift (env : Env) (userId shiftId freshId : String) :
    ActionResult × Env :=
  match env.shifts.find? (fun s => s.id = shiftId) with
  | none => (⟨false, some "Shift not found", none, none⟩, env)
  | some shift =>
    if ¬ shift.isPublished then
      (⟨false, some "Shift is not published", none, none⟩, env)
    else if dateBase shift.date + toMinutes shift.startTime ≤ env.now then
      (⟨false, some "Cannot pick up a shift that has already started",
        none, none⟩, env)
    else if (env.shiftAssignments.filter fun a =>
        a.shiftId = shiftId).length ≥ shift.headcount then
      (⟨false, some "This shift is already fully staffed", none, none⟩, env)
    else if env.shiftAssignments.any (fun a =>
        a.shiftId = shiftId ∧ a.staffId = userId) then
      (⟨false, some "You are already assigned to this shift", none, none⟩, env)
    else
      (⟨true, none, none, none⟩,
        { env with shiftAssignments := env.shiftAssignments ++
          [⟨freshId, shiftId, userId, userId, env.now⟩] })

-- ── Helper lemmas ────────────────────────────────────────────────────────

/-- A branch on isEmpty whose false branch is an any-test collapses, since
any on the empty list is already false. -/
theorem if_isEmpty_any {α : Type} (l : List α) (p : α → Bool) :
    (if l.isEmpty then false else l.any p) = l.any p := by
  cases l <;> simp

-- ── Example data for claim evaluations ───────────────────────────────────

/-- Worker with Monday recurring rules 09:00-12:00 and 13:00-17:00,
holding the skill and certification of the candidate shift, and no
exceptions or assignments. -/
def mondayGapEnv : Env :=
  { users := []
    staffSkills := [("worker1", "skill1")]
    staffLocationCerts := [("worker1", "loc1")]
    availabilityRules :=
      [⟨"worker1", 1, ⟨9, 0⟩, ⟨12, 0⟩⟩, ⟨"worker1", 1, ⟨13, 0⟩, ⟨17, 0⟩⟩]
    availabilityExceptions := []
    shifts := []
    shiftAssignments := []
    swapRequests := []
    now := 0 }

/-- Monday 10:00-14:00 candidate shift (date 1 is a Monday in the integer
date model). -/
def mondayGapShift : ShiftData :=
  ⟨"shift1", "loc1", 1, ⟨10, 0⟩, ⟨14, 0⟩, "skill1"⟩

-- ── C3 ───────────────────────────────────────────────────────────────────

/-- C3: for a non-overnight candidate shift on a date with no availability
exception for the worker, the NOT_AVAILABLE check passes iff some single
recurring rule for that day-of-week contains the whole requested range;
union coverage by several rules does not pass, so the worker with Monday
rules 09:00-12:00 and 13:00-17:00 draws a NOT_AVAILABLE error for a Monday
10:00-14:00 shift. -/
theorem availability_requires_single_rule_containment
    (env : Env) (staffId : String) (date : Int) (startTime endTime : TimeOfDay)
    (hovernight : isOvernightShift startTime endTime = false)
    (hnoexc : ∀ e ∈ env.availabilityExceptions,
      ¬ (e.staffId = staffId ∧ e.date = date)) :
    (checkAvailability env staffId date startTime endTime = true
      ↔ ∃ r ∈ env.availabilityRules,
          r.staffId = staffId ∧ r.dayOfWeek = jsGetDay date
            ∧ toMinutes r.startTime ≤ toMinutes startTime
            ∧ toMinutes endTime ≤ toMinutes r.endTime)
    ∧ (⟨"error", "NOT_AVAILABLE",
        "Staff member is not available at this time"⟩ : ConstraintViolation)
        ∈ (validateAssignment mondayGapEnv "worker1" mondayGapShift).violations := by
  constructor
  · have hexc : env.availabilityExceptions.filter
        (fun e => decide (e.staffId = staffId ∧ e.date = date)) = [] := by
      refine List.filter_eq_nil_iff.mpr ?_
      intro e he
      simpa using hnoexc e he
    unfold checkAvailability
    rw [hexc]
    unfold checkSingleDayAvailability
    rw [if_isEmpty_any]
    simp [hovernight, List.any_eq_true, List.mem_filter, and_assoc]
  · decide

/-- C3 witness: the containment characterization applied to the Monday
gap example, whose hypotheses hold by evaluation. -/
theorem availability_requires_single_rule_containment_witness :
    isOvernightShift ⟨10, 0⟩ ⟨14, 0⟩ = false
      ∧ ((checkAvailability mondayGapEnv "worker1" 1 ⟨10, 0⟩ ⟨14, 0⟩ = true
          ↔ ∃ r ∈ mondayGapEnv.availabilityRules,
              r.staffId = "worker1" ∧ r.dayOfWeek = jsGetDay 1
                ∧ toMinutes r.startTime ≤ toMinutes ⟨10, 0⟩
                ∧ toMinutes ⟨14, 0⟩ ≤ toMinutes r.endTime)
        ∧ (⟨"error", "NOT_AVAILABLE",
            "Staff member is not available at this time"⟩ : ConstraintViolation)
            ∈ (validateAssignment mondayGapEnv "worker1" mondayGapShift).violations) :=
  ⟨by decide,
    availability_requires_single_rule_containment mondayGapEnv "worker1" 1
      ⟨10, 0⟩ ⟨14, 0⟩ (by decide) (by decide)⟩

-- ── C4 ───────────────────────────────────────────────────────────────────

/-- Worker with an isAvailable=true exception 10:00-18:00 on date 5 (a
Friday), no recurring rules at all, and the skill and certification of the
candidate shift. -/
def fridayExceptionEnv : Env :=
  { users := []
    staffSkills := [("worker1", "skill1")]
    staffLocationCerts := [("worker1", "loc1")]
    availabilityRules := []
    availabilityExceptions := [⟨"worker1", 5, true, some ⟨10, 0⟩, some ⟨18, 0⟩⟩]
    shifts := []
    shiftAssignments := []
    swapRequests := []
    now := 0 }

/-- Friday 11:00-15:00 candidate shift, contained in the exception window. -/
def fridayExceptionShift : ShiftData :=
  ⟨"shift1", "loc1", 5, ⟨11, 0⟩, ⟨15, 0⟩, "skill1"⟩

/-- C4 evidence: even though the worker has an isAvailable=true exception
for the date whose 10:00-18:00 window fully contains the 11:00-15:00
candidate range, the engine reports the worker unavailable: the
availability check only ever consults isAvailable=false exceptions and the
recurring rules, so a NOT_AVAILABLE error is produced. -/
theorem available_exception_not_honoured :
    (∃ e ∈ fridayExceptionEnv.availabilityExceptions,
      e.staffId = "worker1" ∧ e.date = fridayExceptionShift.date
        ∧ e.isAvailable = true
        ∧ e.startTime = some ⟨10, 0⟩ ∧ e.endTime = some ⟨18, 0⟩)
      ∧ isOvernightShift ⟨11, 0⟩ ⟨15, 0⟩ = false
      ∧ checkAvailability fridayExceptionEnv "worker1" 5 ⟨11, 0⟩ ⟨15, 0⟩ = false
      ∧ (⟨"error", "NOT_AVAILABLE",
          "Staff member is not available at this time"⟩ : ConstraintViolation)
          ∈ (validateAssignment fridayExceptionEnv "worker1" fridayExceptionShift).violations := by
  decide

-- ── C5 ───────────────────────────────────────────────────────────────────

/-- Worker assigned to a 14:00-22:00 shift on date 10, for the rest period
boundary examples. -/
def restEnv : Env :=
  { users := []
    staffSkills := []
    staffLocationCerts := []
    availabilityRules := []
    availabilityExceptions := []
    shifts := [⟨"sE", "loc1", 10, ⟨14, 0⟩, ⟨22, 0⟩, "skill1", 1, true, 1⟩]
    shiftAssignments := [⟨"aE", "sE", "worker1", "mgr1", 0⟩]
    swapRequests := []
    now := 0 }

/-- Next-day 08:00-16:00 candidate: exactly 10 hours after the 22:00 end. -/
def restOkShift : ShiftData := ⟨"sNew", "loc1", 11, ⟨8, 0⟩, ⟨16, 0⟩, "skill1"⟩

/-- Next-day 07:59-16:00 candidate: 9 hours 59 minutes after the 22:00 end. -/
def restShortShift : ShiftData := ⟨"sNew", "loc1", 11, ⟨7, 59⟩, ⟨16, 0⟩, "skill1"⟩

/-- C5: the rest check reports a violation iff some assignment of the
worker in the four-date window has a directional gap (hours from existing
end to candidate start, or from candidate end to existing start) strictly
between 0 and 10; an exactly 10-hour gap (22:00 end, 08:00 next-day start)
passes while a 9h59m gap (07:59 start) is a violation. -/
theorem rest_violation_iff_directional_gap_under_ten
    (env : Env) (staffId : String) (newShift : ShiftData) :
    (check10HourRest env staffId newShift = true
      ↔ ∃ s ∈ assignedShifts env staffId,
          (s.date = addDays newShift.date (-1) ∨ s.date = newShift.date
            ∨ s.date = addDays newShift.date 1 ∨ s.date = addDays newShift.date 2)
          ∧ (let newR := shiftAbsRange newShift.date newShift.startTime newShift.endTime
             let exR := shiftAbsRange s.date s.startTime s.endTime
             (0 < ((newR.1 - exR.2 : Int) : ℚ) / 60
                ∧ ((newR.1 - exR.2 : Int) : ℚ) / 60 < 10)
               ∨ (0 < ((exR.1 - newR.2 : Int) : ℚ) / 60
                  ∧ ((exR.1 - newR.2 : Int) : ℚ) / 60 < 10)))
    ∧ check10HourRest restEnv "worker1" restShortShift = true
    ∧ check10HourRest restEnv "worker1" restOkShift = false := by
  refine ⟨?_,
    by norm_num [check10HourRest, assignedShifts, restEnv, restShortShift,
      restWindowDates, restGapViolation, shiftAbsRange, absoluteRange,
      dateBase, toMinutes, addDays, List.find?],
    by norm_num [check10HourRest, assignedShifts, restEnv, restOkShift,
      restWindowDates, restGapViolation, shiftAbsRange, absoluteRange,
      dateBase, toMinutes, addDays, List.find?]⟩
  unfold check10HourRest restWindowDates restGapViolation
  simp [List.any_eq_true, List.mem_filter, and_assoc]

-- ── C9 ───────────────────────────────────────────────────────────────────

/-- Two same-day overlapping shifts; w1 holds sA, w2 holds sB, and w2 has
accepted the swap of the sA assignment. -/
def swapRaceEnv : Env :=
  { users := []
    staffSkills := []
    staffLocationCerts := []
    availabilityRules := []
    availabilityExceptions := []
    shifts :=
      [⟨"sA", "loc1", 20, ⟨9, 0⟩, ⟨17, 0⟩, "skill1", 1, true, 1⟩,
       ⟨"sB", "loc1", 20, ⟨10, 0⟩, ⟨18, 0⟩, "skill1", 1, true, 1⟩]
    shiftAssignments :=
      [⟨"a1", "sA", "w1", "mgr1", 0⟩, ⟨"a2", "sB", "w2", "mgr1", 0⟩]
    swapRequests :=
      [⟨"req1", "a1", "w1", .SWAP, some "w2", .ACCEPTED_BY_TARGET,
        none, none, none⟩]
    now := 100 }

/-- C9: approving an accepted swap reassigns the existing assignment row
to the target with no overlap re-validation, so a target already holding
an overlapping shift ends up with two time-overlapping assignments: the
approval succeeds, row a1 keeps its id but now carries w2, and w2 then
holds two distinct assignments whose absolute ranges overlap. -/
theorem swap_approval_can_double_book_target :
    ((approveSwapRequest swapRaceEnv "mgr1" "req1" none).1.success = true)
      ∧ ((approveSwapRequest swapRaceEnv "mgr1" "req1" none).2.shiftAssignments.find?
          (fun a => a.id = "a1")
          = some ⟨"a1", "sA", "w2", "mgr1", 100⟩)
      ∧ (∃ s1 ∈ assignedShifts (approveSwapRequest swapRaceEnv "mgr1" "req1" none).2 "w2",
         ∃ s2 ∈ assignedShifts (approveSwapRequest swapRaceEnv "mgr1" "req1" none).2 "w2",
           s1.id ≠ s2.id
             ∧ (shiftAbsRange s1.date s1.startTime s1.endTime).1
                 < (shiftAbsRange s2.date s2.startTime s2.endTime).2
             ∧ (shiftAbsRange s2.date s2.startTime s2.endTime).1
                 < (shiftAbsRange s1.date s1.startTime s1.endTime).2) := by
  decide

-- ── C2 ───────────────────────────────────────────────────────────────────

/-- Requester w1 with three concurrent requests, all ACCEPTED_BY_TARGET,
and a further assignment a1 free of pending requests. -/
def acceptedCapEnv : Env :=
  { users := []
    staffSkills := []
    staffLocationCerts := []
    availabilityRules := []
    availabilityExceptions := []
    shifts :=
      [⟨"s1", "loc1", 30, ⟨9, 0⟩, ⟨17, 0⟩, "skill1", 1, true, 1⟩,
       ⟨"s2", "loc1", 31, ⟨9, 0⟩, ⟨17, 0⟩, "skill1", 1, true, 1⟩,
       ⟨"s3", "loc1", 32, ⟨9, 0⟩, ⟨17, 0⟩, "skill1", 1, true, 1⟩,
       ⟨"s4", "loc1", 33, ⟨9, 0⟩, ⟨17, 0⟩, "skill1", 1, true, 1⟩]
    shiftAssignments :=
      [⟨"a1", "s1", "w1", "mgr1", 0⟩, ⟨"b1", "s2", "w1", "mgr1", 0⟩,
       ⟨"b2", "s3", "w1", "mgr1", 0⟩, ⟨"b3", "s4", "w1", "mgr1", 0⟩]
    swapRequests :=
      [⟨"q1", "b1", "w1", .SWAP, some "w9", .ACCEPTED_BY_TARGET, none, none, none⟩,
       ⟨"q2", "b2", "w1", .SWAP, some "w9", .ACCEPTED_BY_TARGET, none, none, none⟩,
       ⟨"q3", "b3", "w1", .SWAP, some "w9", .ACCEPTED_BY_TARGET, none, none, none⟩]
    now := 0 }

/-- C2 counterexample: the requester has three concurrent requests in
status PENDING or ACCEPTED_BY_TARGET, yet creating a further swap request
succeeds and is not rejected with the cap message — the cap only counts
rows whose status is PENDING. -/
theorem request_cap_ignores_accepted_by_target :
    ((acceptedCapEnv.swapRequests.filter fun r =>
        r.requestedBy = "w1"
          ∧ (r.status = .PENDING ∨ r.status = .ACCEPTED_BY_TARGET)).length = 3)
      ∧ ((createSwapRequest acceptedCapEnv "w1" "a1" "w2" "qNew").1.success = true)
      ∧ ((createSwapRequest acceptedCapEnv "w1" "a1" "w2" "qNew").1.error
          ≠ some requestCapMessage) := by
  decide

/-- C2 as amended: the creation cap counts only the PENDING requests of
the requester; with 3 or more of those both creations are rejected with
the cap message and no insertion, and with fewer than 3 the cap check
passes (the cap message is never returned, other preconditions unchanged). -/
theorem request_cap_counts_only_pending
    (env : Env) (userId assignmentId targetStaffId freshId : String) :
    (pendingRequestCount env userId ≥ 3 →
      createSwapRequest env userId assignmentId targetStaffId freshId
          = (⟨false, some requestCapMessage, none, none⟩, env)
        ∧ createDropRequest env userId assignmentId freshId
          = (⟨false, some requestCapMessage, none, none⟩, env))
    ∧ (pendingRequestCount env userId < 3 →
      (createSwapRequest env userId assignmentId targetStaffId freshId).1.error
          ≠ some requestCapMessage
        ∧ (createDropRequest env userId assignmentId freshId).1.error
          ≠ some requestCapMessage) := by
  constructor
  · intro h
    unfold createSwapRequest createDropRequest
    simp only [if_pos h]
    exact ⟨trivial, trivial⟩
  · intro h
    have h3 : ¬ pendingRequestCount env userId ≥ 3 := by omega
    unfold createSwapRequest createDropRequest
    simp only [if_neg h3]
    constructor <;>
      · split
        · simp [requestCapMessage]
        · split_ifs <;>
            first
            | (simp [requestCapMessage]; done)
            | (split <;>
                first
                | (simp [requestCapMessage]; done)
                | (split_ifs <;> simp [requestCapMessage]))

/-- Requester w1 with three concurrent PENDING requests and a further
assignment a1 free of pending requests. -/
def pendingCapEnv : Env :=
  { users := []
    staffSkills := []
    staffLocationCerts := []
    availabilityRules := []
    availabilityExceptions := []
    shifts :=
      [⟨"s1", "loc1", 30, ⟨9, 0⟩, ⟨17, 0⟩, "skill1", 1, true, 1⟩,
       ⟨"s2", "loc1", 31, ⟨9, 0⟩, ⟨17, 0⟩, "skill1", 1, true, 1⟩,
       ⟨"s3", "loc1", 32, ⟨9, 0⟩, ⟨17, 0⟩, "skill1", 1, true, 1⟩,
       ⟨"s4", "loc1", 33, ⟨9, 0⟩, ⟨17, 0⟩, "skill1", 1, true, 1⟩]
    shiftAssignments :=
      [⟨"a1", "s1", "w1", "mgr1", 0⟩, ⟨"b1", "s2", "w1", "mgr1", 0⟩,
       ⟨"b2", "s3", "w1", "mgr1", 0⟩, ⟨"b3", "s4", "w1", "mgr1", 0⟩]
    swapRequests :=
      [⟨"q1", "b1", "w1", .SWAP, some "w9", .PENDING, none, none, none⟩,
       ⟨"q2", "b2", "w1", .SWAP, some "w9", .PENDING, none, none, none⟩,
       ⟨"q3", "b3", "w1", .SWAP, some "w9", .PENDING, none, none, none⟩]
    now := 0 }

/-- C2 witness: the amended cap rule applied to a requester with three
PENDING requests (rejected with the cap message) and to one with three
ACCEPTED_BY_TARGET requests (cap check passes). -/
theorem request_cap_counts_only_pending_witness :
    (createSwapRequest pendingCapEnv "w1" "a1" "w2" "qNew"
        = (⟨false, some requestCapMessage, none, none⟩, pendingCapEnv))
      ∧ ((createSwapRequest acceptedCapEnv "w1" "a1" "w2" "qNew").1.error
          ≠ some requestCapMessage) :=
  ⟨((request_cap_counts_only_pending pendingCapEnv "w1" "a1" "w2" "qNew").1
      (by decide)).1,
   ((request_cap_counts_only_pending acceptedCapEnv "w1" "a1" "w2" "qNew").2
      (by decide)).1⟩

-- ── C7 ───────────────────────────────────────────────────────────────────

/-- Requester w1 whose request q1 has already been APPROVED by a manager,
with reviewer fields set. -/
def processedCancelEnv : Env :=
  { users := []
    staffSkills := []
    staffLocationCerts := []
    availabilityRules := []
    availabilityExceptions := []
    shifts := [⟨"s1", "loc1", 30, ⟨9, 0⟩, ⟨17, 0⟩, "skill1", 1, true, 1⟩]
    shiftAssignments := [⟨"a1", "s1", "w1", "mgr1", 0⟩]
    swapRequests :=
      [⟨"q1", "a1", "w1", .SWAP, some "w2", .APPROVED,
        some "mgr1", some 50, some "ok"⟩]
    now := 100 }

/-- C7 counterexample: cancelling an APPROVED request through the
my-shifts cancel action fails with the message about pending requests, not
with an already-processed message, so not every cancel path reports
"already processed" (no state is mutated either way). -/
theorem cancel_processed_message_differs :
    ((myShiftsCancelSwapRequest processedCancelEnv "w1" "q1").1.success = false)
      ∧ ((myShiftsCancelSwapRequest processedCancelEnv "w1" "q1").1.error
          = some "Only pending requests can be cancelled")
      ∧ ((myShiftsCancelSwapRequest processedCancelEnv "w1" "q1").1.error
          ≠ some "This request has already been processed")
      ∧ ((myShiftsCancelSwapRequest processedCancelEnv "w1" "q1").2
          = processedCancelEnv) := by
  decide

/-- C7 as amended: cancelling a request already APPROVED or DENIED fails
in both cancel actions and leaves the whole store untouched; the
swap-requests module reports "This request has already been processed"
while the my-shifts module reports "Only pending requests can be
cancelled". -/
theorem cancel_after_processing_fails_without_mutation
    (env : Env) (userId requestId : String) (request : SwapRequest)
    (hfind : env.swapRequests.find? (fun r => r.id = requestId) = some request)
    (howner : request.requestedBy = userId)
    (hstatus : request.status = .APPROVED ∨ request.status = .DENIED) :
    cancelSwapRequest env userId requestId
        = (⟨false, some "This request has already been processed", none, none⟩,
           env)
      ∧ myShiftsCancelSwapRequest env userId requestId
        = (⟨false, some "Only pending requests can be cancelled", none, none⟩,
           env) := by
  unfold cancelSwapRequest myShiftsCancelSwapRequest
  rw [hfind]
  rcases hstatus with h | h <;> simp [howner, h]

/-- C7 witness: both cancel actions applied to the APPROVED request q1. -/
theorem cancel_after_processing_fails_without_mutation_witness :
    cancelSwapRequest processedCancelEnv "w1" "q1"
        = (⟨false, some "This request has already been processed", none, none⟩,
           processedCancelEnv)
      ∧ myShiftsCancelSwapRequest processedCancelEnv "w1" "q1"
        = (⟨false, some "Only pending requests can be cancelled", none, none⟩,
           processedCancelEnv) :=
  cancel_after_processing_fails_without_mutation processedCancelEnv "w1" "q1"
    ⟨"q1", "a1", "w1", .SWAP, some "w2", .APPROVED, some "mgr1", some 50, some "ok"⟩
    (by decide) (by decide) (Or.inl (by decide))

-- ── C6 ───────────────────────────────────────────────────────────────────

/-- Pointwise description of a mapped list as a Forall₂ relation. -/
theorem forall2_of_map {α β : Type} (R : α → β → Prop) (f : α → β)
    (l : List α) (h : ∀ a ∈ l, R a (f a)) : List.Forall₂ R l (l.map f) := by
  induction l with
  | nil => simp
  | cons a t ih =>
    simp only [List.map_cons, List.forall₂_cons]
    exact ⟨h a (by simp), ih fun x hx => h x (by simp [hx])⟩

/-- C6: a successful version-checked edit cancels, with the synthetic
note, exactly the PENDING requests referencing an assignment of the edited
shift, and leaves every other request (any other status, or any other
shift) entirely unchanged; ids of requests are assumed unique as in the
database. -/
theorem edit_cascade_cancels_exactly_pending
    (env : Env) (shiftId : String) (p : ShiftParams) (version : Int)
    (hnodup : (env.swapRequests.map SwapRequest.id).Nodup)
    (hsucc : (updateShift env shiftId p version).1.success = true) :
    List.Forall₂ (fun r r2 =>
        (r.status = .PENDING
            ∧ r.shiftAssignmentId ∈ (env.shiftAssignments.filter fun a =>
                a.shiftId = shiftId).map ShiftAssignment.id →
          r2 = { r with status := .CANCELLED,
                        reviewNotes := some cascadeCancelNote })
        ∧ (¬ (r.status = .PENDING
            ∧ r.shiftAssignmentId ∈ (env.shiftAssignments.filter fun a =>
                a.shiftId = shiftId).map ShiftAssignment.id) →
          r2 = r))
      env.swapRequests (updateShift env shiftId p version).2.swapRequests := by
  simp only [updateShift] at hsucc ⊢
  by_cases hempty : (List.filter
      (fun s => decide (s.id = shiftId ∧ s.version = version)) env.shifts).isEmpty = true
  · rw [if_pos hempty] at hsucc
    split at hsucc <;> simp at hsucc
  · rw [if_neg hempty]
    refine forall2_of_map _ _ _ ?_
    intro r hr
    constructor
    · intro hcond
      unfold cascadeCancelRow
      rw [if_pos ?_]
      exact List.mem_map_of_mem SwapRequest.id
        (List.mem_filter.mpr ⟨hr, by simpa using hcond⟩)
    · intro hcond
      unfold cascadeCancelRow
      rw [if_neg ?_]
      intro hmem
      rcases List.mem_map.mp hmem with ⟨r2, hr2f, hid⟩
      rcases List.mem_filter.mp hr2f with ⟨hr2, hcond2⟩
      have heq : r2 = r :=
        List.inj_on_of_nodup_map hnodup hr2 hr hid
      rw [heq] at hcond2
      exact hcond (by simpa using hcond2)

/-- Shift s1 with two assignments carrying two PENDING requests and an
ACCEPTED_BY_TARGET request. -/
def cascadeEnv : Env :=
  { users := []
    staffSkills := []
    staffLocationCerts := []
    availabilityRules := []
    availabilityExceptions := []
    shifts := [⟨"s1", "loc1", 40, ⟨9, 0⟩, ⟨17, 0⟩, "skill1", 2, true, 1⟩]
    shiftAssignments :=
      [⟨"a1", "s1", "w1", "mgr1", 0⟩, ⟨"a2", "s1", "w2", "mgr1", 0⟩]
    swapRequests :=
      [⟨"q1", "a1", "w1", .SWAP, some "w3", .PENDING, none, none, none⟩,
       ⟨"q2", "a2", "w2", .DROP, none, .PENDING, none, none, none⟩,
       ⟨"q3", "a1", "w1", .SWAP, some "w4", .ACCEPTED_BY_TARGET,
        none, none, none⟩]
    now := 0 }

/-- Edit of s1 moving it one hour later. -/
def cascadeParams : ShiftParams := ⟨"loc1", 40, ⟨10, 0⟩, ⟨18, 0⟩, "skill1", 2⟩

/-- C6 witness: the cascade theorem applied to the example with two
PENDING requests and one ACCEPTED_BY_TARGET request on the edited shift. -/
theorem edit_cascade_cancels_exactly_pending_witness :
    List.Forall₂ (fun r r2 =>
        (r.status = .PENDING
            ∧ r.shiftAssignmentId ∈ (cascadeEnv.shiftAssignments.filter fun a =>
                a.shiftId = "s1").map ShiftAssignment.id →
          r2 = { r with status := .CANCELLED,
                        reviewNotes := some cascadeCancelNote })
        ∧ (¬ (r.status = .PENDING
            ∧ r.shiftAssignmentId ∈ (cascadeEnv.shiftAssignments.filter fun a =>
                a.shiftId = "s1").map ShiftAssignment.id) →
          r2 = r))
      cascadeEnv.swapRequests
      (updateShift cascadeEnv "s1" cascadeParams 1).2.swapRequests :=
  edit_cascade_cancels_exactly_pending cascadeEnv "s1" cascadeParams 1
    (by decide) (by decide)

-- ── C8 ───────────────────────────────────────────────────────────────────

/-- C8: shift versions only increase. Creation appends a draft at version
1 leaving old rows untouched; an edit succeeds exactly when a stored row
matches the caller-supplied id and version and then writes version + 1;
publish and unpublish increment by exactly 1 through their atomic
conditional updates; and no operation, delete included, ever decreases
the version of a surviving row. -/
theorem shift_version_monotonic
    (env : Env) (p : ShiftParams) (freshId shiftId : String) (version : Int) :
    ((createShift env p freshId).2.shifts.take env.shifts.length = env.shifts
      ∧ ∀ s ∈ (createShift env p freshId).2.shifts,
          s ∈ env.shifts ∨ (s.version = 1 ∧ s.isPublished = false))
    ∧ ((updateShift env shiftId p version).1.success = true
        ↔ ∃ s ∈ env.shifts, s.id = shiftId ∧ s.version = version)
    ∧ List.Forall₂ (fun s s2 =>
        s.version ≤ s2.version
          ∧ (s.id = shiftId ∧ s.version = version → s2.version = s.version + 1)
          ∧ (¬ (s.id = shiftId ∧ s.version = version) → s2 = s))
        env.shifts (updateShift env shiftId p version).2.shifts
    ∧ List.Forall₂ (fun s s2 =>
        s.version ≤ s2.version
          ∧ (s.id = shiftId ∧ s.isPublished = false →
              s2.version = s.version + 1 ∧ s2.isPublished = true)
          ∧ (¬ (s.id = shiftId ∧ s.isPublished = false) → s2 = s))
        env.shifts (publishShift env shiftId).2.shifts
    ∧ List.Forall₂ (fun s s2 => s.version ≤ s2.version)
        env.shifts (unpublishShift env shiftId).2.shifts
    ∧ ((unpublishShift env shiftId).1.success = true →
        List.Forall₂ (fun s s2 =>
          (s.id = shiftId ∧ s.isPublished = true →
              s2.version = s.version + 1 ∧ s2.isPublished = false)
            ∧ (¬ (s.id = shiftId ∧ s.isPublished = true) → s2 = s))
          env.shifts (unpublishShift env shiftId).2.shifts)
    ∧ ∀ s ∈ (deleteShift env shiftId).2.shifts, s ∈ env.shifts := by
  refine ⟨⟨?_, ?_⟩, ?_, ?_, ?_, ?_, ?_, ?_⟩
  · exact List.take_left _ _
  · intro s hs
    simp only [createShift] at hs
    rcases List.mem_append.mp hs with h | h
    · exact Or.inl h
    · rw [List.mem_singleton] at h
      subst h
      exact Or.inr ⟨rfl, rfl⟩
  · simp only [updateShift]
    by_cases hempty : (List.filter
        (fun s => decide (s.id = shiftId ∧ s.version = version)) env.shifts).isEmpty = true
    · rw [if_pos hempty]
      have hno := List.filter_eq_nil_iff.mp (List.isEmpty_iff.mp hempty)
      constructor
      · intro hs
        split at hs <;> simp at hs
      · rintro ⟨s, hs, h1, h2⟩
        exact ((hno s hs) (by simp [h1, h2])).elim
    · rw [if_neg hempty]
      have hne : (List.filter
          (fun s => decide (s.id = shiftId ∧ s.version = version)) env.shifts) ≠ [] :=
        fun hh => hempty (by rw [hh]; rfl)
      rcases List.exists_mem_of_ne_nil _ hne with ⟨s, hsf⟩
      rcases List.mem_filter.mp hsf with ⟨hs, hcond⟩
      simp only [decide_eq_true_eq] at hcond
      exact ⟨fun _ => ⟨s, hs, hcond.1, hcond.2⟩, fun _ => rfl⟩
  · simp only [updateShift]
    by_cases hempty : (List.filter
        (fun s => decide (s.id = shiftId ∧ s.version = version)) env.shifts).isEmpty = true
    · rw [if_pos hempty]
      have hno := List.filter_eq_nil_iff.mp (List.isEmpty_iff.mp hempty)
      split <;>
        · refine List.forall₂_same.mpr fun s hs => ?_
          refine ⟨le_refl _, fun hc => ?_, fun _ => rfl⟩
          exact ((hno s hs) (by simp [hc.1, hc.2])).elim
    · rw [if_neg hempty]
      refine forall2_of_map _ _ _ fun s hs => ?_
      refine ⟨?_, ?_, ?_⟩
      · unfold updateShiftRow
        split
        · rename_i hc
          simp only []
          rw [hc.2]
          omega
        · exact le_refl _
      · intro hc
        unfold updateShiftRow
        rw [if_pos hc]
        simp only []
        rw [hc.2]
      · intro hc
        unfold updateShiftRow
        rw [if_neg hc]
  · simp only [publishShift]
    by_cases hempty : (List.filter
        (fun s => decide (s.id = shiftId ∧ s.isPublished = false)) env.shifts).isEmpty = true
    · rw [if_pos hempty]
      have hno := List.filter_eq_nil_iff.mp (List.isEmpty_iff.mp hempty)
      have hsame : List.Forall₂ (fun s s2 =>
          s.version ≤ s2.version
            ∧ (s.id = shiftId ∧ s.isPublished = false →
                s2.version = s.version + 1 ∧ s2.isPublished = true)
            ∧ (¬ (s.id = shiftId ∧ s.isPublished = false) → s2 = s))
          env.shifts env.shifts :=
        List.forall₂_same.mpr fun s hs =>
          ⟨le_refl _, fun hc => ((hno s hs) (by simp [hc.1, hc.2])).elim,
            fun _ => rfl⟩
      split
      · exact hsame
      · split <;> exact hsame
    · rw [if_neg hempty]
      refine forall2_of_map _ _ _ fun s hs => ?_
      refine ⟨?_, ?_, ?_⟩
      · split
        · simp only []
          omega
        · exact le_refl _
      · intro hc
        rw [if_pos hc]
        exact ⟨rfl, rfl⟩
      · intro hc
        rw [if_neg hc]
  · simp only [unpublishShift]
    split
    · exact List.forall₂_same.mpr fun s hs => le_refl s.version
    · split_ifs <;>
        first
        | exact List.forall₂_same.mpr fun s hs => le_refl s.version
        | (refine forall2_of_map _ _ _ fun s hs => ?_
           split
           · show s.version ≤ s.version + 1
             omega
           · exact le_refl _)
  · intro hsucc
    simp only [unpublishShift] at hsucc ⊢
    rcases hfind : env.shifts.find? (fun s => s.id = shiftId) with _ | shift
    · rw [hfind] at hsucc
      simp at hsucc
    · simp only [hfind] at hsucc ⊢
      by_cases h1 : ¬ shift.isPublished = true
      · rw [if_pos h1] at hsucc
        simp at hsucc
      · rw [if_neg h1] at hsucc ⊢
        by_cases h2 : hoursUntilStart env shift.date shift.startTime ≤ 48
        · rw [if_pos h2] at hsucc
          simp at hsucc
        · rw [if_neg h2] at hsucc ⊢
          by_cases h3 : (List.filter
              (fun s => decide (s.id = shiftId ∧ s.isPublished = true)) env.shifts).isEmpty = true
          · rw [if_pos h3] at hsucc
            simp at hsucc
          · rw [if_neg h3]
            refine forall2_of_map _ _ _ fun s hs => ?_
            constructor
            · intro hc
              rw [if_pos hc]
              exact ⟨rfl, rfl⟩
            · intro hc
              rw [if_neg hc]
  · simp only [deleteShift]
    split
    · exact fun s hs => hs
    · split_ifs
      · exact fun s hs => hs
      · intro s hs
        exact (List.mem_filter.mp hs).1

/-- Published shift at version 3 starting far in the future. -/
def versionEnv : Env :=
  { users := []
    staffSkills := []
    staffLocationCerts := []
    availabilityRules := []
    availabilityExceptions := []
    shifts := [⟨"s1", "loc1", 100, ⟨9, 0⟩, ⟨17, 0⟩, "skill1", 1, true, 3⟩]
    shiftAssignments := []
    swapRequests := []
    now := 0 }

/-- Edit payload reused by the version witness. -/
def versionParams : ShiftParams := ⟨"loc1", 100, ⟨9, 0⟩, ⟨17, 0⟩, "skill1", 1⟩

/-- C8 witness: the version theorem applied to a concrete store; the
edit-success characterization is extracted, and the unpublish increment is
obtained by discharging the success hypothesis by evaluation. -/
theorem shift_version_monotonic_witness :
    ((updateShift versionEnv "s1" versionParams 3).1.success = true
        ↔ ∃ s ∈ versionEnv.shifts, s.id = "s1" ∧ s.version = 3)
      ∧ List.Forall₂ (fun s s2 =>
          (s.id = "s1" ∧ s.isPublished = true →
              s2.version = s.version + 1 ∧ s2.isPublished = false)
            ∧ (¬ (s.id = "s1" ∧ s.isPublished = true) → s2 = s))
          versionEnv.shifts (unpublishShift versionEnv "s1").2.shifts :=
  ⟨(shift_version_monotonic versionEnv versionParams "f1" "s1" 3).2.1,
   (shift_version_monotonic versionEnv versionParams "f1" "s1" 3).2.2.2.2.2.1
     (by norm_num [unpublishShift, versionEnv, hoursUntilStart, dateBase,
       toMinutes, List.find?])⟩

-- ── C1 ───────────────────────────────────────────────────────────────────

/-- C1: when validation yields at least one error, assignStaffToShift
rejects with the joined error messages and an overridable flag that is
true iff the error set is exactly one SEVENTH_CONSECUTIVE_DAY violation —
unless exactly that single error is present and the supplied reason is
truthy and nonempty after trimming, in which case the call proceeds to the
locked transaction despite the error: it either inserts the assignment or
aborts on the re-checked race conditions, leaving the store unchanged. -/
theorem override_gate_on_validation_errors
    (env : Env) (userId shiftId staffId freshId : String)
    (overrideReason : Option String) (shiftRow : Shift)
    (errors : List ConstraintViolation) (onlySeventhDay : Bool)
    (hfind : env.shifts.find? (fun s => s.id = shiftId) = some shiftRow)
    (herrsdef : errors = (validateAssignment env staffId
        ⟨shiftRow.id, shiftRow.locationId, shiftRow.date, shiftRow.startTime,
          shiftRow.endTime, shiftRow.skillId⟩).violations.filter
        (fun v => v.type = "error"))
    (hseventh : onlySeventhDay = decide (errors.length = 1
        ∧ errors.head?.map ConstraintViolation.code
            = some "SEVENTH_CONSECUTIVE_DAY"))
    (herr : errors ≠ []) :
    (¬ (onlySeventhDay = true ∧ overrideReasonOk overrideReason = true) →
      assignStaffToShift env userId shiftId staffId overrideReason freshId
        = (⟨false,
            some (String.intercalate "; "
              (errors.map ConstraintViolation.message)),
            some onlySeventhDay, none⟩, env))
    ∧ ((onlySeventhDay = true ∧ overrideReasonOk overrideReason = true) →
      ((assignStaffToShift env userId shiftId staffId overrideReason freshId).1.success
            = true
          ∧ (assignStaffToShift env userId shiftId staffId overrideReason
              freshId).2.shiftAssignments
            = env.shiftAssignments
                ++ [⟨freshId, shiftId, staffId, userId, env.now⟩])
        ∨ ((assignStaffToShift env userId shiftId staffId overrideReason
              freshId).2 = env
            ∧ ((assignStaffToShift env userId shiftId staffId overrideReason
                  freshId).1.error
                = some "Staff member has a conflicting shift at this time. They were just assigned to an overlapping shift by another manager."
              ∨ (assignStaffToShift env userId shiftId staffId overrideReason
                  freshId).1.error
                = some "Staff is already assigned to this shift"))) := by
  subst herrsdef
  subst hseventh
  have hvalid : (validateAssignment env staffId
      ⟨shiftRow.id, shiftRow.locationId, shiftRow.date, shiftRow.startTime,
        shiftRow.endTime, shiftRow.skillId⟩).valid = false := by
    refine decide_eq_false ?_
    intro hlen
    exact herr (List.length_eq_zero.mp hlen)
  simp only [assignStaffToShift, hfind]
  constructor
  · intro hno
    split_ifs with hcond
    · rfl
    · exact absurd ⟨by simp [hvalid], hno⟩ hcond
  · intro hov
    split_ifs with hcond
    · exact absurd hov hcond.2
    · simp only [assignWithinTx]
      split_ifs <;>
        first
        | (right; exact ⟨rfl, Or.inl rfl⟩)
        | (right; exact ⟨rfl, Or.inr rfl⟩)
        | (left; exact ⟨rfl, rfl⟩)

/-- The overridable seventh-consecutive-day violation produced by the
engine. -/
def seventhViolation : ConstraintViolation :=
  ⟨"error", "SEVENTH_CONSECUTIVE_DAY",
    "Staff member would work their 7th consecutive day. This requires manager override with documented reason."⟩

/-- Worker w1 with one-hour shifts on the six days before date 100, full
availability every day, and the skill and certification of the candidate
shift sc on date 100 (the seventh consecutive day). -/
def sevenDayEnv : Env :=
  { users := []
    staffSkills := [("w1", "skill1")]
    staffLocationCerts := [("w1", "loc1")]
    availabilityRules :=
      [⟨"w1", 0, ⟨8, 0⟩, ⟨18, 0⟩⟩, ⟨"w1", 1, ⟨8, 0⟩, ⟨18, 0⟩⟩,
       ⟨"w1", 2, ⟨8, 0⟩, ⟨18, 0⟩⟩, ⟨"w1", 3, ⟨8, 0⟩, ⟨18, 0⟩⟩,
       ⟨"w1", 4, ⟨8, 0⟩, ⟨18, 0⟩⟩, ⟨"w1", 5, ⟨8, 0⟩, ⟨18, 0⟩⟩,
       ⟨"w1", 6, ⟨8, 0⟩, ⟨18, 0⟩⟩]
    availabilityExceptions := []
    shifts :=
      [⟨"sc", "loc1", 100, ⟨9, 0⟩, ⟨10, 0⟩, "skill1", 1, false, 1⟩,
       ⟨"e1", "loc1", 94, ⟨9, 0⟩, ⟨10, 0⟩, "skill1", 1, true, 1⟩,
       ⟨"e2", "loc1", 95, ⟨9, 0⟩, ⟨10, 0⟩, "skill1", 1, true, 1⟩,
       ⟨"e3", "loc1", 96, ⟨9, 0⟩, ⟨10, 0⟩, "skill1", 1, true, 1⟩,
       ⟨"e4", "loc1", 97, ⟨9, 0⟩, ⟨10, 0⟩, "skill1", 1, true, 1⟩,
       ⟨"e5", "loc1", 98, ⟨9, 0⟩, ⟨10, 0⟩, "skill1", 1, true, 1⟩,
       ⟨"e6", "loc1", 99, ⟨9, 0⟩, ⟨10, 0⟩, "skill1", 1, true, 1⟩]
    shiftAssignments :=
      [⟨"ae1", "e1", "w1", "mgr1", 0⟩, ⟨"ae2", "e2", "w1", "mgr1", 0⟩,
       ⟨"ae3", "e3", "w1", "mgr1", 0⟩, ⟨"ae4", "e4", "w1", "mgr1", 0⟩,
       ⟨"ae5", "e5", "w1", "mgr1", 0⟩, ⟨"ae6", "e6", "w1", "mgr1", 0⟩]
    swapRequests := []
    now := 0 }

set_option maxHeartbeats 2000000

/-- Evaluation of the constraint engine on the seventh-day example: the
error set is exactly the seventh-consecutive-day violation. -/
theorem sevenDayEnv_validation :
    [seventhViolation] = (validateAssignment sevenDayEnv "w1"
        ⟨"sc", "loc1", 100, ⟨9, 0⟩, ⟨10, 0⟩, "skill1"⟩).violations.filter
      (fun v => v.type = "error") := by
  norm_num [validateAssignment, seventhViolation, sevenDayEnv, checkSkillMatch,
    checkLocationCertification, checkAvailability, checkSingleDayAvailability,
    checkShiftOverlap, check10HourRest, checkLaborLimits, getDailyHours,
    getWeeklyHours, getConsecutiveDays, consecutiveFrom, workedOn,
    assignedShifts, findStaffWithSkill, shiftAbsRange, absoluteRange,
    restWindowDates, restGapViolation, shiftDurationHours, toMinutes,
    isOvernightShift, jsGetDay, mondayOf, addDays, dateBase,
    List.find?, List.filter, List.filterMap, List.any, List.foldl]

set_option maxHeartbeats 200000

/-- C1 witness: the gate theorem applied to the seventh-day example, once
without a reason (rejected with the violation message, overridable true)
and once with a documented reason (proceeds to the transaction). -/
theorem override_gate_on_validation_errors_witness :
    (assignStaffToShift sevenDayEnv "mgr1" "sc" "w1" none "na1"
        = (⟨false,
            some (String.intercalate "; "
              ([seventhViolation].map ConstraintViolation.message)),
            some true, none⟩, sevenDayEnv))
      ∧ (((assignStaffToShift sevenDayEnv "mgr1" "sc" "w1"
              (some "Emergency coverage") "na1").1.success = true
            ∧ (assignStaffToShift sevenDayEnv "mgr1" "sc" "w1"
                (some "Emergency coverage") "na1").2.shiftAssignments
              = sevenDayEnv.shiftAssignments
                  ++ [⟨"na1", "sc", "w1", "mgr1", 0⟩])
          ∨ ((assignStaffToShift sevenDayEnv "mgr1" "sc" "w1"
                (some "Emergency coverage") "na1").2 = sevenDayEnv
              ∧ ((assignStaffToShift sevenDayEnv "mgr1" "sc" "w1"
                    (some "Emergency coverage") "na1").1.error
                  = some "Staff member has a conflicting shift at this time. They were just assigned to an overlapping shift by another manager."
                ∨ (assignStaffToShift sevenDayEnv "mgr1" "sc" "w1"
                    (some "Emergency coverage") "na1").1.error
                  = some "Staff is already assigned to this shift"))) :=
  ⟨(override_gate_on_validation_errors sevenDayEnv "mgr1" "sc" "w1" "na1" none
      ⟨"sc", "loc1", 100, ⟨9, 0⟩, ⟨10, 0⟩, "skill1", 1, false, 1⟩
      [seventhViolation] true (by decide) sevenDayEnv_validation (by decide)
      (by decide)).1 (by decide),
   (override_gate_on_validation_errors sevenDayEnv "mgr1" "sc" "w1" "na1"
      (some "Emergency coverage")
      ⟨"sc", "loc1", 100, ⟨9, 0⟩, ⟨10, 0⟩, "skill1", 1, false, 1⟩
      [seventhViolation] true (by decide) sevenDayEnv_validation (by decide)
      (by decide)).2 (by decide)⟩

-- ── C10 ──────────────────────────────────────────────────────────────────

/-- C10: worker self-pickup rejects exactly when the shift is missing,
unpublished, not strictly in the future, at or above headcount, or already
held by the worker; on success it appends the self-assigned row.  The
check-then-insert touches none of the constraint-engine inputs: replacing
the skill, certification, availability-rule and exception tables wholesale
never changes the outcome (the source runs these reads and the insert
directly, with no transaction, no advisory lock and no engine call). -/
theorem pickup_rejects_iff_and_skips_validation
    (env : Env) (userId shiftId freshId : String)
    (skills certs : List (String × String))
    (rules : List AvailabilityRule) (excs : List AvailabilityException) :
    ((pickUpShift env userId shiftId freshId).1.success = true
      ↔ ∃ shift, env.shifts.find? (fun s => s.id = shiftId) = some shift
          ∧ shift.isPublished = true
          ∧ env.now < dateBase shift.date + toMinutes shift.startTime
          ∧ (env.shiftAssignments.filter fun a =>
              a.shiftId = shiftId).length < shift.headcount
          ∧ ¬ ∃ a ∈ env.shiftAssignments,
              a.shiftId = shiftId ∧ a.staffId = userId)
    ∧ ((pickUpShift env userId shiftId freshId).1.success = true →
        (pickUpShift env userId shiftId freshId).2.shiftAssignments
          = env.shiftAssignments
              ++ [⟨freshId, shiftId, userId, userId, env.now⟩])
    ∧ ((pickUpShift { env with
            staffSkills := skills
            staffLocationCerts := certs
            availabilityRules := rules
            availabilityExceptions := excs } userId shiftId freshId).1
        = (pickUpShift env userId shiftId freshId).1
      ∧ (pickUpShift { env with
            staffSkills := skills
            staffLocationCerts := certs
            availabilityRules := rules
            availabilityExceptions := excs } userId shiftId freshId).2.shiftAssignments
        = (pickUpShift env userId shiftId freshId).2.shiftAssignments) := by
  refine ⟨?_, ?_, ?_⟩
  · rcases hfind : env.shifts.find? (fun s => s.id = shiftId) with _ | shift
    · simp [pickUpShift, hfind]
    · simp only [pickUpShift, hfind]
      split_ifs with h1 h2 h3 h4
      · constructor
        · intro hs
          simp at hs
        · rintro ⟨s2, hs2, -, hlt, -⟩
          rw [Option.some.injEq] at hs2
          subst hs2
          omega
      · constructor
        · intro hs
          simp at hs
        · rintro ⟨s2, hs2, -, -, hcount, -⟩
          rw [Option.some.injEq] at hs2
          subst hs2
          omega
      · constructor
        · intro hs
          simp at hs
        · rintro ⟨s2, hs2, -, -, -, hnone⟩
          rw [Option.some.injEq] at hs2
          subst hs2
          refine hnone ?_
          rcases List.any_eq_true.mp h4 with ⟨a, ha, hcond⟩
          simp only [decide_eq_true_eq] at hcond
          exact ⟨a, ha, hcond⟩
      · constructor
        · intro _
          refine ⟨shift, rfl, h1, by omega, by omega, ?_⟩
          rintro ⟨a, ha, hc1, hc2⟩
          exact h4 (List.any_eq_true.mpr ⟨a, ha, by simp [hc1, hc2]⟩)
        · intro _
          rfl
      · constructor
        · intro hs
          simp at hs
        · rintro ⟨s2, hs2, hpub, -⟩
          rw [Option.some.injEq] at hs2
          subst hs2
          exact h1 hpub
  · rcases hfind : env.shifts.find? (fun s => s.id = shiftId) with _ | shift
    · intro hs
      simp [pickUpShift, hfind] at hs
    · simp only [pickUpShift, hfind]
      split_ifs <;> intro hs <;> first | rfl | simp at hs
  · constructor <;>
      · simp only [pickUpShift]
        rcases hfind : env.shifts.find? (fun s => s.id = shiftId) with _ | shift
        · simp only [hfind]
        · simp only [hfind]
          split_ifs <;> rfl

/-- Published future shift with spare headcount; another worker already
holds one of its two slots. -/
def pickupEnv : Env :=
  { users := []
    staffSkills := []
    staffLocationCerts := []
    availabilityRules := []
    availabilityExceptions := []
    shifts := [⟨"s1", "loc1", 100, ⟨9, 0⟩, ⟨17, 0⟩, "skill1", 2, true, 1⟩]
    shiftAssignments := [⟨"a1", "s1", "w9", "mgr1", 0⟩]
    swapRequests := []
    now := 0 }

/-- C10 witness: the pickup theorem applied to a concrete published future
shift, discharging every precondition by evaluation. -/
theorem pickup_rejects_iff_and_skips_validation_witness :
    (pickUpShift pickupEnv "w1" "s1" "na2").1.success = true
      ∧ (pickUpShift pickupEnv "w1" "s1" "na2").2.shiftAssignments
        = pickupEnv.shiftAssignments ++ [⟨"na2", "s1", "w1", "w1", 0⟩] := by
  have h := pickup_rejects_iff_and_skips_validation pickupEnv "w1" "s1" "na2"
    [] [] [] []
  have hsucc : (pickUpShift pickupEnv "w1" "s1" "na2").1.success = true :=
    h.1.mpr ⟨⟨"s1", "loc1", 100, ⟨9, 0⟩, ⟨17, 0⟩, "skill1", 2, true, 1⟩,
      by decide, by decide, by decide, by decide, by decide⟩
  exact ⟨hsucc, h.2.1 hsucc⟩

end ShiftSync
